import Mathlib

/-!
Shallow embedding of `src/main.rs` of drive-uploader-rust.

The program mirrors a local directory tree into Google Drive:
`main` obtains an access token (`get_token`), creates a remote root folder
(`create_drive_folder`), spawns 8 worker threads that drain an mpsc channel of
upload jobs (`upload_file`), then walks the tree (`upload_folder_recursive`),
creating a remote folder per subdirectory and enqueuing one job per file of
size at most `MAX_FILE_SIZE`.

Modelling choices, each justified by the source:
* HTTP is abstracted to a response record (status, body, parse result seen by
  serde); `env : Nat → Option String` gives the outcome of the n-th
  folder-creation call made during a run (`some id` = 2xx with that `id`,
  `none` = the call returned an error through `?`).
* The walker is embedded as a trace-producing function: it emits an `Event`
  for each folder-create attempt, each successful creation, each enqueued job
  and each logged skip, in source order, together with the Rust function's
  `Result` (a `Bool`: `true` = `Ok(())`, `false` = `Err`).
* `reqwest::StatusCode::is_success` is 200..=299; `Response::error_for_status`
  errors exactly on statuses 400..=599 and its error carries the status code
  (and url), not the response body.
* The worker pool is embedded as a step relation on (queue contents after the
  sender is dropped, number of workers still in their loop).
-/

namespace DriveUploader

/-- MAX_FILE_SIZE from `src/main.rs`: `const MAX_FILE_SIZE: u64 = 1_000_000_000`. -/
def MAX_FILE_SIZE : Nat := 1000000000

/-- DRIVE_ROOT_NAME from `src/main.rs`. -/
def DRIVE_ROOT_NAME : String := "ImportantFiles"

/-- MAX_THREADS from `src/main.rs`: the worker pool size. -/
def MAX_THREADS : Nat := 8

/-- Job from `src/main.rs`: `type Job = (PathBuf, String)` — the file path and
the id of the remote parent folder. Paths are modelled by their final name
component. -/
abbrev Job := String × String

/-- Observable events of one run of the walker, in source order:
`createCall name parent` is a `create_drive_folder` POST for a subdirectory,
`created id` its successful outcome, `createFailed name` its failed outcome
(the `?` then propagates), `enqueued name size parent` a `tx.send` of a job,
`skippedOversize` / `skippedMeta` the two logged file skips, and
`loggedWalkError name` the `eprintln!("Failed to walk folder …")` emitted when
the recursive call for an already-created subfolder returns `Err`. -/
inductive Event where
  | createCall (name parent : String)
  | created (id : String)
  | createFailed (name : String)
  | enqueued (name : String) (size : Nat) (parent : String)
  | skippedOversize (name : String) (size : Nat)
  | skippedMeta (name : String)
  | loggedWalkError (name : String)
  deriving DecidableEq, Repr

mutual
/-- A local filesystem entry as seen by `fs::read_dir`.
For a file, `meta = none` models `fs::metadata` failing (logged skip) and
`meta = some sz` a readable metadata with `len() = sz`.
For a directory, `name = none` models `file_name().and_then(|n| n.to_str())`
returning `None` (a name that is not valid UTF-8), and `readable = false`
models `fs::read_dir` failing on that directory when it is visited. -/
inductive FSEntry : Type where
  | file (name : String) (meta : Option Nat) : FSEntry
  | dir (name : Option String) (readable : Bool) (sub : FSForest) : FSEntry

/-- A list of directory entries, in the order `fs::read_dir` yields them. -/
inductive FSForest : Type where
  | nil : FSForest
  | cons (e : FSEntry) (rest : FSForest) : FSForest
end

mutual
/-- One iteration of the `for entry in fs::read_dir(local_dir)?` loop body of
`upload_folder_recursive`, for entry `e` of a directory whose remote folder id
is `parent`; `c` counts the folder-create calls made so far (the n-th call's
outcome is `env n`). Returns (new counter, emitted events, `true` iff the loop
body completed without propagating an error via `?`).
The directory branch computes the name as
`path.file_name().and_then(|n| n.to_str()).unwrap_or("folder")`, calls
`create_drive_folder` with `?` (so a failure ends the whole loop), and on
success recurses, only logging a recursion error (`if let Err(e) = …`).
The file branch reads metadata (logged skip on failure), skips files with
`len() > MAX_FILE_SIZE`, and otherwise sends the job `(path, parent)`. -/
def walkEntry (env : Nat → Option String) (c : Nat) (parent : String) :
    FSEntry → Nat × List Event × Bool
  | .file name meta =>
    match meta with
    | none => (c, [Event.skippedMeta name], true)
    | some sz =>
      if sz > MAX_FILE_SIZE then (c, [Event.skippedOversize name sz], true)
      else (c, [Event.enqueued name sz parent], true)
  | .dir nameOpt readable sub =>
    let name := nameOpt.getD "folder"
    match env c with
    | none => (c + 1, [Event.createCall name parent, Event.createFailed name], false)
    | some id =>
      let r := if readable then walkForest env (c + 1) id sub else (c + 1, [], false)
      (r.1,
       Event.createCall name parent :: Event.created id ::
         (r.2.1 ++ if r.2.2 then [] else [Event.loggedWalkError name]),
       true)

/-- The `for` loop of `upload_folder_recursive` over the entries of one
directory: entries are processed in order; the first entry whose body
propagates an error (`?` on `create_drive_folder`) ends the loop and makes the
function return `Err`, leaving the remaining entries unprocessed. -/
def walkForest (env : Nat → Option String) (c : Nat) (parent : String) :
    FSForest → Nat × List Event × Bool
  | .nil => (c, [], true)
  | .cons e rest =>
    let r := walkEntry env c parent e
    if r.2.2 then
      let r2 := walkForest env r.1 parent rest
      (r2.1, r.2.1 ++ r2.2.1, r2.2.2)
    else r
end

/-- upload_folder_recursive from `src/main.rs`, called on a path: returns
`Err` when the path is not a directory (`!local_dir.is_dir()`) or when
`fs::read_dir` fails on it, and otherwise runs the entry loop (`walkForest`).
The recursive call inside `walkEntry` inlines exactly this body (the `is_dir`
check holds there by construction since `path.is_dir()` was just tested). -/
def uploadFolderRecursive (env : Nat → Option String) (c : Nat) (parent : String) :
    FSEntry → Nat × List Event × Bool
  | .file _ _ => (c, [], false)
  | .dir _ readable sub =>
    if readable then walkForest env c parent sub else (c, [], false)

/-- main from `src/main.rs`, up to its exit status: resolve
`dirs::document_dir()` (`none` = failure, `?` aborts), obtain the initial
token (`tokenOk = false` = `get_token` failed, `?` aborts), create the remote
root folder (create call number 0; `env 0 = none` = failure, `?` aborts), then
run `upload_folder_recursive` on the root with `?`: a propagated walk error
also aborts. Returns `true` iff the process exits with code 0. The worker
threads and the final sleep do not affect the exit status. -/
def mainModel (rootDir : Option FSEntry) (tokenOk : Bool)
    (env : Nat → Option String) : Bool :=
  match rootDir with
  | none => false
  | some root =>
    if tokenOk then
      match env 0 with
      | none => false
      | some rootId => (uploadFolderRecursive env 1 rootId root).2.2
    else false

/-- OAuthConfig from `src/main.rs`: the three configured credential values.
Note the struct holds no access token: the request built by `get_token` cannot
mention one. -/
structure OAuthConfig where
  client_id : String
  client_secret : String
  refresh_token : String
  deriving DecidableEq, Repr

/-- The form body of the single POST issued by `get_token` to
`https://oauth2.googleapis.com/token`, exactly as the source lists it. -/
def getTokenForm (oauth : OAuthConfig) : List (String × String) :=
  [("client_id", oauth.client_id),
   ("client_secret", oauth.client_secret),
   ("refresh_token", oauth.refresh_token),
   ("grant_type", "refresh_token")]

/-- The response to a token-exchange call as `get_token` observes it:
the status, the body text, and the result of
`serde_json::from_str::<TokenResponse>(&body)` (`some t` iff the body is JSON
with a string field `access_token` equal to `t`). -/
structure TokenHttpResponse where
  status : Nat
  body : String
  parsedAccessToken : Option String
  deriving DecidableEq, Repr

/-- get_token from `src/main.rs`, after the POST: if the status is not a
success (`is_success` = 200..=299) it logs status and body and returns
`Err("token error")`; otherwise it parses the body (`?` on a parse failure)
and returns the `access_token` field. -/
def getToken (resp : TokenHttpResponse) : Except String String :=
  if 200 ≤ resp.status ∧ resp.status ≤ 299 then
    match resp.parsedAccessToken with
    | some t => Except.ok t
    | none => Except.error "json parse error"
  else Except.error "token error"

/-- Result of `serde_json::from_str::<Value>` plus the `v["id"].as_str()`
lookup on a Drive response body: `invalid` = the body is not valid JSON
(`.json()?` fails), `noId` = valid JSON without a string `id` field,
`withId id` = valid JSON whose `id` field is the string `id`. -/
inductive ParseOutcome where
  | invalid
  | noId
  | withId (id : String)
  deriving DecidableEq, Repr

/-- A Drive API response as the source observes it: status code, body text,
and the parse outcome of the body. -/
structure DriveResponse where
  status : Nat
  body : String
  parsed : ParseOutcome
  deriving DecidableEq, Repr

/-- The errors `create_drive_folder` can return.
`tokenExpired` is `Err("token expired while creating folder")` (401 and the
refresh succeeded); `refreshFailed` is the error of the inner `get_token`
propagated by `?` (401 and the refresh failed); `statusError s` is the
`reqwest` error produced by `error_for_status()` on a status in 400..=599 —
it carries the status code, not the body; `jsonError` is a `.json()?` failure;
`missingId` is `Err("Folder created but no id in response")`. -/
inductive CreateError where
  | tokenExpired
  | refreshFailed
  | statusError (status : Nat)
  | jsonError
  | missingId
  deriving DecidableEq, Repr

/-- Outcome of one `create_drive_folder` or `upload_file` invocation:
the returned `Result`, the token store's content when the function returns
(the store is only written on a successful refresh after a 401), the number of
`get_token` calls it made, and the number of Drive API POSTs it issued. -/
structure OpResult (ε α : Type) where
  result : Except ε α
  store : String
  refreshCalls : Nat
  apiCalls : Nat

/-- create_drive_folder from `src/main.rs`, abstracted over the response
`resp` to its single POST and over the outcome `refresh` of the `get_token`
call it would make on a 401 (`some t` = refresh succeeded with new token `t`,
`none` = refresh failed). `store` is the token store's content; the function
snapshots it for the bearer header, issues one POST, and then: on 401 calls
`get_token` once, on success overwrites the store with the new token and
returns `Err` (the create is not retried); on any status in 400..=599
`error_for_status()?` returns its status-carrying error; otherwise the body is
parsed and the `id` field returned, `missingId` if absent. -/
def createDriveFolder (refresh : Option String) (resp : DriveResponse)
    (store : String) : OpResult CreateError String :=
  if resp.status = 401 then
    match refresh with
    | some newTok => ⟨Except.error CreateError.tokenExpired, newTok, 1, 1⟩
    | none => ⟨Except.error CreateError.refreshFailed, store, 1, 1⟩
  else if 400 ≤ resp.status ∧ resp.status ≤ 599 then
    ⟨Except.error (CreateError.statusError resp.status), store, 0, 1⟩
  else
    match resp.parsed with
    | ParseOutcome.invalid => ⟨Except.error CreateError.jsonError, store, 0, 1⟩
    | ParseOutcome.noId => ⟨Except.error CreateError.missingId, store, 0, 1⟩
    | ParseOutcome.withId id => ⟨Except.ok id, store, 0, 1⟩

/-- The errors `upload_file` can return. `invalidName` is
`Err("Invalid file name")` (no POST is made); `cantOpen` is the
`multipart::Part::file` failure (no POST is made); `tokenExpired` /
`refreshFailed` are the 401 outcomes as in `create_drive_folder`;
`statusBody s b` is `Err(format!("upload failed: {} - {}", status, body))` —
unlike folder creation, this error carries both status and body. -/
inductive UploadError where
  | invalidName
  | cantOpen
  | tokenExpired
  | refreshFailed
  | statusBody (status : Nat) (body : String)
  deriving DecidableEq, Repr

/-- upload_file from `src/main.rs`, abstracted as `createDriveFolder` is.
`fileName` is `file_path.file_name().and_then(|n| n.to_str())` (`none` aborts
before any I/O), `fileOpens` is whether `multipart::Part::file` succeeds.
After the single POST: 401 triggers one `get_token`, writes the store on
refresh success, and returns `Err` (the job is not re-enqueued); any other
non-2xx status returns an error carrying the status and the body text;
a 2xx status is `Ok(())`. -/
def uploadFile (refresh : Option String) (fileName : Option String)
    (fileOpens : Bool) (resp : DriveResponse) (store : String) :
    OpResult UploadError Unit :=
  match fileName with
  | none => ⟨Except.error UploadError.invalidName, store, 0, 0⟩
  | some _ =>
    if fileOpens then
      if resp.status = 401 then
        match refresh with
        | some newTok => ⟨Except.error UploadError.tokenExpired, newTok, 1, 1⟩
        | none => ⟨Except.error UploadError.refreshFailed, store, 1, 1⟩
      else if 200 ≤ resp.status ∧ resp.status ≤ 299 then
        ⟨Except.ok (), store, 0, 1⟩
      else
        ⟨Except.error (UploadError.statusBody resp.status resp.body), store, 0, 1⟩
    else ⟨Except.error UploadError.cantOpen, store, 0, 0⟩

/-- State of the worker pool after `drop(tx)`: the jobs still in the channel
and the number of workers still inside their `loop`. -/
structure PoolState where
  queue : List Job
  active : Nat
  deriving DecidableEq, Repr

/-- One observable step of the worker pool of `main` (lines 55–77), after the
sender is dropped so the channel is closed. `take`: a worker's `recv()`
returns `Ok(job)`; it runs `upload_file` — whose outcome `uploadFailed` is
only logged — and loops. `exitLoop`: a worker's `recv()` on the
closed-and-empty channel returns `Err`, and the worker `break`s out of its
loop (termination, not a failure). -/
inductive PoolStep : PoolState → PoolState → Prop where
  | take (j : Job) (rest : List Job) (a : Nat) (uploadFailed : Bool) :
      PoolStep ⟨j :: rest, a + 1⟩ ⟨rest, a + 1⟩
  | exitLoop (a : Nat) : PoolStep ⟨[], a + 1⟩ ⟨[], a⟩

/-- Termination measure for the pool: pending jobs plus workers still in
their loops. -/
def poolMeasure (s : PoolState) : Nat := s.queue.length + s.active

/-- Checks the parent-folder invariant of a trace: reading events in order,
every `enqueued _ _ p` must have `p` among the folder ids available at that
moment, where the available ids are the initially given `avail` plus the ids
of all `created` events seen so far. -/
def goodTrace (avail : List String) : List Event → Bool
  | [] => true
  | Event.created i :: t => goodTrace (i :: avail) t
  | Event.enqueued _ _ p :: t => avail.contains p && goodTrace avail t
  | _ :: t => goodTrace avail t

/-- The folder ids available after reading a trace: `avail` plus the ids of
its `created` events. -/
def availAfter (avail : List String) : List Event → List String
  | [] => avail
  | Event.created i :: t => availAfter (i :: avail) t
  | _ :: t => availAfter avail t

theorem contains_availAfter (t : List Event) (avail : List String) (x : String)
    (h : avail.contains x = true) : (availAfter avail t).contains x = true := by
  induction t generalizing avail with
  | nil => exact h
  | cons e rest ih =>
    cases e with
    | created i =>
      simp only [availAfter]
      refine ih (i :: avail) ?_
      have hx : x ∈ avail := by simpa using h
      simp [List.contains_cons, hx]
    | createCall n p => exact ih avail h
    | createFailed n => exact ih avail h
    | enqueued n s p => exact ih avail h
    | skippedOversize n s => exact ih avail h
    | skippedMeta n => exact ih avail h
    | loggedWalkError n => exact ih avail h

theorem goodTrace_mono (t : List Event) (a b : List String)
    (hsub : ∀ x, a.contains x = true → b.contains x = true)
    (h : goodTrace a t = true) : goodTrace b t = true := by
  induction t generalizing a b with
  | nil => rfl
  | cons e rest ih =>
    cases e with
    | created i =>
      simp only [goodTrace] at h ⊢
      refine ih (i :: a) (i :: b) ?_ h
      intro x hx
      simp only [List.contains_cons, Bool.or_eq_true] at hx ⊢
      rcases hx with hx | hx
      · exact Or.inl hx
      · exact Or.inr (hsub x hx)
    | enqueued n s p =>
      simp only [goodTrace, Bool.and_eq_true] at h ⊢
      exact ⟨hsub p h.1, ih a b hsub h.2⟩
    | createCall n p => exact ih a b hsub h
    | createFailed n => exact ih a b hsub h
    | skippedOversize n s => exact ih a b hsub h
    | skippedMeta n => exact ih a b hsub h
    | loggedWalkError n => exact ih a b hsub h

theorem goodTrace_append (t1 t2 : List Event) (avail : List String)
    (h1 : goodTrace avail t1 = true)
    (h2 : goodTrace (availAfter avail t1) t2 = true) :
    goodTrace avail (t1 ++ t2) = true := by
  induction t1 generalizing avail with
  | nil => exact h2
  | cons e rest ih =>
    cases e with
    | created i =>
      simp only [goodTrace, availAfter] at h1 h2 ⊢
      exact ih (i :: avail) h1 h2
    | enqueued n s p =>
      simp only [goodTrace, availAfter, Bool.and_eq_true, List.cons_append] at h1 h2 ⊢
      exact ⟨h1.1, ih avail h1.2 h2⟩
    | createCall n p => exact ih avail h1 h2
    | createFailed n => exact ih avail h1 h2
    | skippedOversize n s => exact ih avail h1 h2
    | skippedMeta n => exact ih avail h1 h2
    | loggedWalkError n => exact ih avail h1 h2

mutual
theorem goodTrace_walkEntry (e : FSEntry) (env : Nat → Option String) (c : Nat)
    (parent : String) (avail : List String)
    (h : avail.contains parent = true) :
    goodTrace avail (walkEntry env c parent e).2.1 = true := by
  cases e with
  | file name meta =>
    cases meta with
    | none => simp [walkEntry, goodTrace]
    | some sz =>
      by_cases hsz : sz > MAX_FILE_SIZE
      · simp [walkEntry, hsz, goodTrace]
      · simp only [walkEntry, hsz, if_false, goodTrace]
        have hx : parent ∈ avail := by simpa using h
        simp [hx, goodTrace]
  | dir nameOpt readable sub =>
    cases henv : env c with
    | none => simp [walkEntry, henv, goodTrace]
    | some id =>
      have hid : (id :: avail).contains id = true := by simp [List.contains_cons]
      cases readable with
      | true =>
        have hsub := goodTrace_walkForest sub env (c + 1) id (id :: avail) hid
        simp only [walkEntry, henv, goodTrace]
        refine goodTrace_append _ _ _ hsub ?_
        cases hok2 : (walkForest env (c + 1) id sub).2.2 with
        | true => simp [hok2, goodTrace]
        | false => simp [hok2, goodTrace]
      | false =>
        simp [walkEntry, henv, goodTrace]

theorem goodTrace_walkForest (f : FSForest) (env : Nat → Option String) (c : Nat)
    (parent : String) (avail : List String)
    (h : avail.contains parent = true) :
    goodTrace avail (walkForest env c parent f).2.1 = true := by
  cases f with
  | nil => simp [walkForest, goodTrace]
  | cons e rest =>
    have he := goodTrace_walkEntry e env c parent avail h
    cases hok : (walkEntry env c parent e).2.2 with
    | true =>
      have hrest := goodTrace_walkForest rest env (walkEntry env c parent e).1 parent
        (availAfter avail (walkEntry env c parent e).2.1)
        (contains_availAfter _ avail parent h)
      simp only [walkForest, hok]
      exact goodTrace_append _ _ _ he hrest
    | false =>
      simp only [walkForest, hok]
      exact he
end

mutual
theorem enqueued_le_walkEntry (e : FSEntry) (env : Nat → Option String) (c : Nat)
    (parent n : String) (s : Nat) (p : String)
    (h : Event.enqueued n s p ∈ (walkEntry env c parent e).2.1) :
    s ≤ MAX_FILE_SIZE := by
  cases e with
  | file name meta =>
    cases meta with
    | none => simp [walkEntry] at h
    | some sz =>
      by_cases hsz : sz > MAX_FILE_SIZE
      · simp [walkEntry, hsz] at h
      · simp [walkEntry, hsz] at h
        omega
  | dir nameOpt readable sub =>
    cases henv : env c with
    | none => simp [walkEntry, henv] at h
    | some id =>
      cases readable with
      | true =>
        simp only [walkEntry, henv, if_true, List.mem_cons, List.mem_append] at h
        rcases h with h | h | h | h
        · exact absurd h (by simp)
        · exact absurd h (by simp)
        · exact enqueued_le_walkForest sub env (c + 1) id n s p h
        · cases hok : (walkForest env (c + 1) id sub).2.2 <;> simp [hok] at h
      | false =>
        simp only [walkEntry, henv, if_false] at h
        simp at h

theorem enqueued_le_walkForest (f : FSForest) (env : Nat → Option String) (c : Nat)
    (parent n : String) (s : Nat) (p : String)
    (h : Event.enqueued n s p ∈ (walkForest env c parent f).2.1) :
    s ≤ MAX_FILE_SIZE := by
  cases f with
  | nil => simp [walkForest] at h
  | cons e rest =>
    cases hok : (walkEntry env c parent e).2.2 with
    | true =>
      simp only [walkForest, hok, List.mem_append, if_true] at h
      rcases h with h | h
      · exact enqueued_le_walkEntry e env c parent n s p h
      · exact enqueued_le_walkForest rest env (walkEntry env c parent e).1 parent n s p h
    | false =>
      simp only [walkForest, hok, if_false] at h
      exact enqueued_le_walkEntry e env c parent n s p h
end

theorem walkForest_file_head (env : Nat → Option String) (c : Nat)
    (parent name : String) (meta : Option Nat) (rest : FSForest) :
    (walkForest env c parent (.cons (.file name meta) rest)).1 =
      (walkForest env c parent rest).1 ∧
    (walkForest env c parent (.cons (.file name meta) rest)).2.2 =
      (walkForest env c parent rest).2.2 := by
  cases meta with
  | none => simp [walkForest, walkEntry]
  | some sz =>
    by_cases hsz : sz > MAX_FILE_SIZE <;> simp [walkForest, walkEntry, hsz]

/-- C1 (as stated, refuted): the claim says that when the walker fails to
create the remote folder for a subdirectory it skips only that subtree and
still processes the remaining siblings, and that no walk error propagates up.
Concretely, with every folder-create call failing, a directory containing a
subdirectory `a` followed by a file `b`: the source aborts at `a` via `?`, so
`b` is never enqueued and the function returns `Err`. -/
theorem C1_counterexample :
    ((walkForest (fun _ => none) 0 "root"
        (.cons (.dir (some "a") true .nil) (.cons (.file "b" (some 10)) .nil))).2.1 =
      [Event.createCall "a" "root", Event.createFailed "a"])
    ∧ Event.enqueued "b" 10 "root" ∉
        (walkForest (fun _ => none) 0 "root"
          (.cons (.dir (some "a") true .nil) (.cons (.file "b" (some 10)) .nil))).2.1
    ∧ (walkForest (fun _ => none) 0 "root"
        (.cons (.dir (some "a") true .nil) (.cons (.file "b" (some 10)) .nil))).2.2
        = false := by
  exact ⟨rfl, by decide, rfl⟩

/-- C1 (amended): if `create_drive_folder` fails for a subdirectory entry,
`upload_folder_recursive` returns that error immediately: the remaining
sibling entries of the same directory are not processed and the error
propagates to the caller. Only an error coming out of the recursive walk of an
already-created subfolder is caught: it is logged and affects neither the
processing of the following siblings nor the function's result. -/
theorem C1_amended_subtree_errors (env : Nat → Option String) (c : Nat)
    (parent : String) (nameOpt : Option String) (readable : Bool)
    (sub rest : FSForest) :
    (env c = none →
      walkForest env c parent (.cons (.dir nameOpt readable sub) rest) =
        (c + 1, [Event.createCall (nameOpt.getD "folder") parent,
                 Event.createFailed (nameOpt.getD "folder")], false))
    ∧ (∀ id, env c = some id →
        ((walkEntry env c parent (.dir nameOpt readable sub)).2.2 = true)
        ∧ ((walkForest env c parent (.cons (.dir nameOpt readable sub) rest)).2.2 =
            (walkForest env (walkEntry env c parent (.dir nameOpt readable sub)).1
              parent rest).2.2))
    ∧ (∀ id, env c = some id → readable = true →
        (walkForest env (c + 1) id sub).2.2 = false →
        Event.loggedWalkError (nameOpt.getD "folder") ∈
          (walkForest env c parent (.cons (.dir nameOpt readable sub) rest)).2.1) := by
  refine ⟨?_, ?_, ?_⟩
  · intro h
    simp [walkForest, walkEntry, h]
  · intro id h
    constructor
    · simp [walkEntry, h]
    · simp [walkForest, walkEntry, h]
  · intro id h hr hfail
    subst hr
    simp [walkForest, walkEntry, h, hfail]

/-- C1 witness: the amended statement at a concrete input — a failing create
aborts the walk of that directory, and a caught recursion error leaves the
overall result equal to that of walking the remaining siblings. -/
theorem C1_witness :
    (walkForest (fun _ => none) 0 "root"
        (.cons (.dir (some "a") true .nil) (.cons (.file "b" (some 10)) .nil)) =
      (1, [Event.createCall "a" "root", Event.createFailed "a"], false))
    ∧ ((walkEntry (fun _ => some "i") 0 "root"
          (.dir (some "a") true .nil)).2.2 = true) := by
  refine ⟨(C1_amended_subtree_errors (fun _ => none) 0 "root" (some "a") true .nil
      (.cons (.file "b" (some 10)) .nil)).1 rfl, ?_⟩
  exact ((C1_amended_subtree_errors (fun _ => some "i") 0 "root" (some "a") true .nil
      .nil).2.1 "i" rfl).1

/-- C2 (as stated, refuted): the claim says main exits 0 whenever the root
directory is resolved, the initial token is obtained and the root remote
folder is created, regardless of failures during the walk. Concretely: all
three startup steps succeed (`env 0 = some "rootid"`, token ok, root
resolved), but the folder-create call for the subdirectory `a` directly under
the root fails, `upload_folder_recursive` returns `Err`, and main's `?` makes
the process exit non-zero. -/
theorem C2_counterexample :
    mainModel
      (some (.dir (some "Documents") true (.cons (.dir (some "a") true .nil) .nil)))
      true (fun n => if n = 0 then some "rootid" else none) = false
    ∧ (fun n => if n = 0 then some "rootid" else none : Nat → Option String) 0 =
        some "rootid" := by
  exact ⟨rfl, rfl⟩

/-- C2 (amended): main exits 0 iff the root directory is resolved, the initial
token is obtained, the root remote folder is created, AND the top-level
`upload_folder_recursive` call returns `Ok` — the latter fails when the root
is not a readable directory or when a folder-create for a direct child of the
root fails (deeper failures are caught inside the walk). Failures on
individual files (unreadable metadata, oversize) never affect the exit
status, and upload failures happen on worker threads and are only logged. -/
theorem C2_amended_exit_status (root : FSEntry) (tokenOk : Bool)
    (env : Nat → Option String) (id : String) :
    (env 0 = some id →
      mainModel (some root) tokenOk env =
        (tokenOk && (uploadFolderRecursive env 1 id root).2.2))
    ∧ mainModel none tokenOk env = false
    ∧ mainModel (some root) false env = false
    ∧ (env 0 = none → mainModel (some root) tokenOk env = false)
    ∧ (∀ (c : Nat) (parent name : String) (meta : Option Nat) (rest : FSForest),
        (walkForest env c parent (.cons (.file name meta) rest)).2.2 =
          (walkForest env c parent rest).2.2) := by
  refine ⟨?_, rfl, ?_, ?_, ?_⟩
  · intro h
    cases tokenOk with
    | true => simp [mainModel, h]
    | false => simp [mainModel]
  · simp [mainModel]
  · intro h
    cases tokenOk with
    | true => simp [mainModel, h]
    | false => simp [mainModel]
  · intro c parent name meta rest
    exact (walkForest_file_head env c parent name meta rest).2

/-- C2 witness: the amended statement at concrete inputs — with the startup
triple succeeding, the exit status is exactly the walk's result, and a file
entry at the head of a directory does not change that result. -/
theorem C2_witness :
    (mainModel (some (.dir (some "d") true .nil)) true (fun _ => some "r") =
      (true && (uploadFolderRecursive (fun _ => some "r") 1 "r"
        (.dir (some "d") true .nil)).2.2))
    ∧ ((walkForest (fun _ => some "r") 0 "p"
          (.cons (.file "x" (some 3)) .nil)).2.2 =
        (walkForest (fun _ => some "r") 0 "p" .nil).2.2) := by
  refine ⟨(C2_amended_exit_status (.dir (some "d") true .nil) true
      (fun _ => some "r") "r").1 rfl, ?_⟩
  exact (C2_amended_exit_status (.dir (some "d") true .nil) true
      (fun _ => some "r") "r").2.2.2.2 0 "p" "x" (some 3) .nil

/-- C4: a regular file encountered by the walker is enqueued iff its size is
at most MAX_FILE_SIZE = 1,000,000,000: no enqueued job ever has a larger
size; a file of exactly the maximum size is enqueued; a file one byte over
is logged as an oversize skip and not enqueued. -/
theorem C4_size_gate :
    (∀ (env : Nat → Option String) (c : Nat) (parent : String) (f : FSForest)
       (n : String) (s : Nat) (p : String),
       Event.enqueued n s p ∈ (walkForest env c parent f).2.1 → s ≤ MAX_FILE_SIZE)
    ∧ (∀ (env : Nat → Option String) (c : Nat) (parent name : String)
         (rest : FSForest),
       (walkForest env c parent (.cons (.file name (some MAX_FILE_SIZE)) rest)).2.1 =
         Event.enqueued name MAX_FILE_SIZE parent ::
           (walkForest env c parent rest).2.1)
    ∧ (∀ (env : Nat → Option String) (c : Nat) (parent name : String)
         (rest : FSForest),
       (walkForest env c parent
           (.cons (.file name (some (MAX_FILE_SIZE + 1))) rest)).2.1 =
         Event.skippedOversize name (MAX_FILE_SIZE + 1) ::
           (walkForest env c parent rest).2.1) := by
  refine ⟨?_, ?_, ?_⟩
  · intro env c parent f n s p h
    exact enqueued_le_walkForest f env c parent n s p h
  · intro env c parent name rest
    simp [walkForest, walkEntry]
  · intro env c parent name rest
    simp [walkForest, walkEntry, MAX_FILE_SIZE]

/-- C4 witness: the size gate at concrete inputs, including both boundary
sizes. -/
theorem C4_witness :
    5 ≤ MAX_FILE_SIZE
    ∧ ((walkForest (fun _ => none) 0 "p"
          (.cons (.file "a" (some MAX_FILE_SIZE)) .nil)).2.1 =
        Event.enqueued "a" MAX_FILE_SIZE "p" ::
          (walkForest (fun _ => none) 0 "p" .nil).2.1)
    ∧ ((walkForest (fun _ => none) 0 "p"
          (.cons (.file "a" (some (MAX_FILE_SIZE + 1))) .nil)).2.1 =
        Event.skippedOversize "a" (MAX_FILE_SIZE + 1) ::
          (walkForest (fun _ => none) 0 "p" .nil).2.1) := by
  refine ⟨?_, ?_, ?_⟩
  · exact C4_size_gate.1 (fun _ => none) 0 "p" (.cons (.file "a" (some 5)) .nil)
      "a" 5 "p" (by decide)
  · exact C4_size_gate.2.1 (fun _ => none) 0 "p" "a" .nil
  · exact C4_size_gate.2.2 (fun _ => none) 0 "p" "a" .nil

/-- C6: every job enqueued by the walker carries a remote parent folder id
that was available before the job was enqueued: either an id the walk was
started with (the root folder id created before the walk) or the id returned
by the successful synchronous creation of a subdirectory folder earlier in
the trace. -/
theorem C6_parent_created_before_enqueue (env : Nat → Option String) (c : Nat)
    (parent : String) (f : FSForest) (avail : List String)
    (h : avail.contains parent = true) :
    goodTrace avail (walkForest env c parent f).2.1 = true :=
  goodTrace_walkForest f env c parent avail h

/-- C6 witness: the parent-id invariant holds on a concrete two-level tree
whose walk both creates a subfolder and enqueues files at both levels. -/
theorem C6_witness :
    goodTrace ["root"]
      (walkForest (fun n => some (String.append "id" (toString n))) 0 "root"
        (.cons (.dir (some "d") true (.cons (.file "x" (some 1)) .nil))
          (.cons (.file "y" (some 2)) .nil))).2.1 = true :=
  C6_parent_created_before_enqueue
    (fun n => some (String.append "id" (toString n))) 0 "root"
    (.cons (.dir (some "d") true (.cons (.file "x" (some 1)) .nil))
      (.cons (.file "y" (some 2)) .nil))
    ["root"] (by decide)

/-- C10: a subdirectory whose name is not valid UTF-8
(`file_name().and_then(|n| n.to_str())` is `None`) still gets a remote folder
created, under the literal substitute name "folder"; on success the walker
descends into it with the new id exactly as for any other directory. -/
theorem C10_substitute_name :
    (∀ (env : Nat → Option String) (c : Nat) (parent : String) (readable : Bool)
       (sub rest : FSForest),
       (walkForest env c parent (.cons (.dir none readable sub) rest)).2.1.head? =
         some (Event.createCall "folder" parent))
    ∧ (∀ (env : Nat → Option String) (c : Nat) (parent : String)
         (sub rest : FSForest) (id : String), env c = some id →
       (walkForest env c parent (.cons (.dir none true sub) rest)).2.1 =
         Event.createCall "folder" parent ::
           (Event.created id ::
             (((walkForest env (c + 1) id sub).2.1 ++
               (if (walkForest env (c + 1) id sub).2.2 then []
                else [Event.loggedWalkError "folder"])) ++
              (walkForest env (walkForest env (c + 1) id sub).1 parent rest).2.1))) := by
  constructor
  · intro env c parent readable sub rest
    cases henv : env c with
    | none => simp [walkForest, walkEntry, henv]
    | some id =>
      cases readable with
      | true => simp [walkForest, walkEntry, henv]
      | false => simp [walkForest, walkEntry, henv]
  · intro env c parent sub rest id h
    simp [walkForest, walkEntry, h]

/-- C10 witness: two sibling directories with non-UTF-8 names each get a
folder-create call under the name "folder", and the walker descends into the
first with the id the service returned for it. -/
theorem C10_witness :
    (walkForest (fun n => some (String.append "id" (toString n))) 0 "root"
        (.cons (.dir none true (.cons (.file "x" (some 1)) .nil))
          (.cons (.dir none true .nil) .nil))).2.1 =
      Event.createCall "folder" "root" ::
        (Event.created "id0" ::
          ((((walkForest (fun n => some (String.append "id" (toString n))) 1 "id0"
                (.cons (.file "x" (some 1)) .nil)).2.1 ++
             (if (walkForest (fun n => some (String.append "id" (toString n))) 1 "id0"
                  (.cons (.file "x" (some 1)) .nil)).2.2 then []
              else [Event.loggedWalkError "folder"])) ++
            (walkForest (fun n => some (String.append "id" (toString n)))
              (walkForest (fun n => some (String.append "id" (toString n))) 1 "id0"
                (.cons (.file "x" (some 1)) .nil)).1 "root"
              (.cons (.dir none true .nil) .nil)).2.1))) :=
  C10_substitute_name.2 (fun n => some (String.append "id" (toString n))) 0 "root"
    (.cons (.file "x" (some 1)) .nil) (.cons (.dir none true .nil) .nil) "id0" rfl

/-- C3 (as stated, refuted): the claim says the error returned for a non-2xx,
non-401 status carries both the status and the response body. In the source
this error is the one produced by `error_for_status()`, which drops the body:
two 500-responses with different bodies yield the very same error value, so
the body is not recoverable from it. -/
theorem C3_counterexample :
    (createDriveFolder none ⟨500, "quota exceeded", ParseOutcome.invalid⟩
        "tk").result = Except.error (CreateError.statusError 500)
    ∧ (createDriveFolder none ⟨500, "quota exceeded", ParseOutcome.invalid⟩
          "tk").result =
        (createDriveFolder none ⟨500, "backend error", ParseOutcome.invalid⟩
          "tk").result
    ∧ ("quota exceeded" : String) ≠ "backend error" := by
  exact ⟨rfl, rfl, by decide⟩

/-- C3 (amended): for every folder-creation call whose response status is in
400..=599 and is not 401, `create_drive_folder` returns an error that carries
the response status; the response body is not part of the error. No refresh
happens and the token store is untouched. -/
theorem C3_amended_status_error (refresh : Option String) (resp : DriveResponse)
    (store : String) (h4 : 400 ≤ resp.status) (h5 : resp.status ≤ 599)
    (h401 : resp.status ≠ 401) :
    (createDriveFolder refresh resp store).result =
      Except.error (CreateError.statusError resp.status)
    ∧ (createDriveFolder refresh resp store).store = store
    ∧ (createDriveFolder refresh resp store).refreshCalls = 0 := by
  simp [createDriveFolder, h401, h4, h5]

/-- C3 witness: the amended statement at a concrete 500-response. -/
theorem C3_witness :
    (createDriveFolder (some "new") ⟨500, "oops", ParseOutcome.invalid⟩
        "tk").result = Except.error (CreateError.statusError 500)
    ∧ (createDriveFolder (some "new") ⟨500, "oops", ParseOutcome.invalid⟩
        "tk").store = "tk"
    ∧ (createDriveFolder (some "new") ⟨500, "oops", ParseOutcome.invalid⟩
        "tk").refreshCalls = 0 :=
  C3_amended_status_error (some "new") ⟨500, "oops", ParseOutcome.invalid⟩ "tk"
    (by decide) (by decide) (by decide)

/-- C5: on a 401 response, both `create_drive_folder` and `upload_file`
perform exactly one `get_token` call; when that refresh yields a new token, it
is written into the shared store before the operation returns; the triggering
operation still returns an error and is not retried — exactly one API POST is
issued and no job is re-enqueued. -/
theorem C5_refresh_on_401 (refresh : Option String) (resp : DriveResponse)
    (store name : String) (h : resp.status = 401) :
    ((createDriveFolder refresh resp store).refreshCalls = 1
     ∧ (createDriveFolder refresh resp store).apiCalls = 1
     ∧ (∀ id, (createDriveFolder refresh resp store).result ≠ Except.ok id)
     ∧ (∀ t, refresh = some t → (createDriveFolder refresh resp store).store = t))
    ∧ ((uploadFile refresh (some name) true resp store).refreshCalls = 1
       ∧ (uploadFile refresh (some name) true resp store).apiCalls = 1
       ∧ (uploadFile refresh (some name) true resp store).result ≠ Except.ok ()
       ∧ (∀ t, refresh = some t →
           (uploadFile refresh (some name) true resp store).store = t)) := by
  cases refresh with
  | none => simp [createDriveFolder, uploadFile, h]
  | some t => simp [createDriveFolder, uploadFile, h]

/-- C5 witness: a concrete 401 with a successful refresh — one refresh call,
one API call, a failed result, and the store now holds the new token, for both
operations. -/
theorem C5_witness :
    ((createDriveFolder (some "new") ⟨401, "", ParseOutcome.invalid⟩
        "old").refreshCalls = 1)
    ∧ ((createDriveFolder (some "new") ⟨401, "", ParseOutcome.invalid⟩
        "old").store = "new")
    ∧ ((createDriveFolder (some "new") ⟨401, "", ParseOutcome.invalid⟩
        "old").result ≠ Except.ok "x")
    ∧ ((uploadFile (some "new") (some "f.txt") true ⟨401, "", ParseOutcome.invalid⟩
        "old").refreshCalls = 1)
    ∧ ((uploadFile (some "new") (some "f.txt") true ⟨401, "", ParseOutcome.invalid⟩
        "old").store = "new") := by
  refine ⟨?_, ?_, ?_, ?_, ?_⟩
  · exact (C5_refresh_on_401 (some "new") ⟨401, "", ParseOutcome.invalid⟩
      "old" "f.txt" rfl).1.1
  · exact (C5_refresh_on_401 (some "new") ⟨401, "", ParseOutcome.invalid⟩
      "old" "f.txt" rfl).1.2.2.2 "new" rfl
  · exact (C5_refresh_on_401 (some "new") ⟨401, "", ParseOutcome.invalid⟩
      "old" "f.txt" rfl).1.2.2.1 "x"
  · exact (C5_refresh_on_401 (some "new") ⟨401, "", ParseOutcome.invalid⟩
      "old" "f.txt" rfl).2.1
  · exact (C5_refresh_on_401 (some "new") ⟨401, "", ParseOutcome.invalid⟩
      "old" "f.txt" rfl).2.2.2.2 "new" rfl

/-- C7: `get_token` issues its single POST with exactly the form fields
client_id, client_secret, refresh_token (the configured long-lived refresh
token — the `OAuthConfig` it reads from holds no access token at all) and
grant_type=refresh_token; on a 2xx status it returns the access_token parsed
from the JSON body, and on any non-2xx status it returns an error after
logging status and body. -/
theorem C7_token_exchange (oauth : OAuthConfig) (resp : TokenHttpResponse) :
    (getTokenForm oauth =
      [("client_id", oauth.client_id), ("client_secret", oauth.client_secret),
       ("refresh_token", oauth.refresh_token), ("grant_type", "refresh_token")])
    ∧ (∀ t, 200 ≤ resp.status → resp.status ≤ 299 →
        resp.parsedAccessToken = some t → getToken resp = Except.ok t)
    ∧ (¬(200 ≤ resp.status ∧ resp.status ≤ 299) →
        getToken resp = Except.error "token error") := by
  refine ⟨rfl, ?_, ?_⟩
  · intro t h2 h3 hp
    simp [getToken, h2, h3, hp]
  · intro h
    simp [getToken, h]

/-- C7 witness: the exact form for a concrete config, a successful parse on a
200, and the hard failure on a 500. -/
theorem C7_witness :
    (getTokenForm ⟨"cid", "csec", "rtok"⟩ =
      [("client_id", "cid"), ("client_secret", "csec"),
       ("refresh_token", "rtok"), ("grant_type", "refresh_token")])
    ∧ getToken ⟨200, "body", some "atok"⟩ = Except.ok "atok"
    ∧ getToken ⟨500, "body", none⟩ = Except.error "token error" := by
  refine ⟨(C7_token_exchange ⟨"cid", "csec", "rtok"⟩ ⟨200, "body", some "atok"⟩).1,
    ?_, ?_⟩
  · exact (C7_token_exchange ⟨"cid", "csec", "rtok"⟩
      ⟨200, "body", some "atok"⟩).2.1 "atok" (by decide) (by decide) rfl
  · exact (C7_token_exchange ⟨"cid", "csec", "rtok"⟩ ⟨500, "body", none⟩).2.2
      (by decide)

/-- C8: on a 2xx response, `create_drive_folder` returns the folder id taken
from the response's id field; a 2xx response whose JSON lacks a string id
field yields the dedicated `missingId` error
("Folder created but no id in response"), a constructor distinct from every
other error of the function. -/
theorem C8_create_success_id (refresh : Option String) (resp : DriveResponse)
    (store : String) (h2 : 200 ≤ resp.status) (h3 : resp.status ≤ 299) :
    (∀ id, resp.parsed = ParseOutcome.withId id →
      (createDriveFolder refresh resp store).result = Except.ok id)
    ∧ (resp.parsed = ParseOutcome.noId →
      (createDriveFolder refresh resp store).result =
        Except.error CreateError.missingId)
    ∧ CreateError.missingId ≠ CreateError.tokenExpired
    ∧ CreateError.missingId ≠ CreateError.jsonError
    ∧ (∀ s, CreateError.missingId ≠ CreateError.statusError s) := by
  have h401 : resp.status ≠ 401 := by omega
  have hrange : ¬(400 ≤ resp.status ∧ resp.status ≤ 599) := by omega
  refine ⟨?_, ?_, by decide, by decide, fun s => by simp⟩
  · intro id hp
    simp [createDriveFolder, h401, hrange, hp]
  · intro hp
    simp [createDriveFolder, h401, hrange, hp]

/-- C8 witness: a concrete 200 with an id returns it, and a concrete 200
without one returns the missingId error. -/
theorem C8_witness :
    (createDriveFolder none ⟨200, "ok", ParseOutcome.withId "fid"⟩ "tk").result =
      Except.ok "fid"
    ∧ (createDriveFolder none ⟨200, "noid", ParseOutcome.noId⟩ "tk").result =
        Except.error CreateError.missingId := by
  refine ⟨?_, ?_⟩
  · exact (C8_create_success_id none ⟨200, "ok", ParseOutcome.withId "fid"⟩ "tk"
      (by decide) (by decide)).1 "fid" rfl
  · exact (C8_create_success_id none ⟨200, "noid", ParseOutcome.noId⟩ "tk"
      (by decide) (by decide)).2.1 rfl

theorem poolDrainQueue (q : List Job) (a : Nat) :
    Relation.ReflTransGen PoolStep ⟨q, a + 1⟩ ⟨[], a + 1⟩ := by
  induction q with
  | nil => exact Relation.ReflTransGen.refl
  | cons j rest ih =>
    exact Relation.ReflTransGen.head (PoolStep.take j rest a false) ih

theorem poolDrainWorkers (a : Nat) :
    Relation.ReflTransGen PoolStep ⟨[], a⟩ ⟨[], 0⟩ := by
  induction a with
  | zero => exact Relation.ReflTransGen.refl
  | succ k ih => exact Relation.ReflTransGen.head (PoolStep.exitLoop k) ih

/-- C9: once the job queue is closed (sender dropped), the pool drains: from
any queue contents and any pool size of at least one worker, the system
reaches the state with an empty queue and zero workers still in their loops —
including the zero-job case, where the only steps taken are loop exits.
Every step strictly decreases the measure (pending jobs + looping workers),
so no execution of the closed pool runs forever, and the drained state allows
no further step: a `recv` on the closed-and-empty channel ends the worker's
loop rather than failing. -/
theorem C9_pool_drains :
    (∀ (q : List Job) (n : Nat), 1 ≤ n →
      Relation.ReflTransGen PoolStep ⟨q, n⟩ ⟨[], 0⟩)
    ∧ (∀ s t, PoolStep s t → poolMeasure t < poolMeasure s)
    ∧ (∀ t, ¬ PoolStep ⟨[], 0⟩ t) := by
  refine ⟨?_, ?_, ?_⟩
  · intro q n hn
    obtain ⟨k, rfl⟩ : ∃ k, n = k + 1 := ⟨n - 1, by omega⟩
    exact (poolDrainQueue q k).trans (poolDrainWorkers (k + 1))
  · intro s t hst
    cases hst with
    | take j rest a u => simp [poolMeasure]
    | exitLoop a => simp [poolMeasure]
  · intro t hst
    cases hst

/-- C9 witness: a pool of 8 workers with two pending jobs drains to the empty
terminal state, and a concrete take step decreases the measure. -/
theorem C9_witness :
    Relation.ReflTransGen PoolStep ⟨[("a.txt", "p1"), ("b.txt", "p2")], 8⟩ ⟨[], 0⟩
    ∧ poolMeasure ⟨[], 1⟩ < poolMeasure ⟨[("a.txt", "p1")], 1⟩
    ∧ ¬ PoolStep ⟨[], 0⟩ ⟨[], 0⟩ := by
  refine ⟨?_, ?_, ?_⟩
  · exact C9_pool_drains.1 [("a.txt", "p1"), ("b.txt", "p2")] 8 (by decide)
  · exact C9_pool_drains.2.1 ⟨[("a.txt", "p1")], 1⟩ ⟨[], 1⟩
      (PoolStep.take ("a.txt", "p1") [] 0 true)
  · exact C9_pool_drains.2.2 ⟨[], 0⟩

end DriveUploader
